import Mathlib

/-!
Verification of the authentication-method orchestration core of the
`hdcrypt_auth` module (AIX `hdcryptmgr` wrapper).

The definitions below are a shallow embedding of
`src/AIX/collections/ansible_collections/ibm/power_aix/plugins/modules/hdcrypt_auth.py`.
Python dictionaries with optional keys become structures with `Option` fields,
Python truthiness tests become explicit `strTruthy` / `intTruthy` checks, and
the points where the module calls `module.run_command`, `module.fail_json` or
`module.exit_json` become constructors of the `Plan` type.  A Python exception
(`KeyError` on a missing dictionary key, `IndexError` on out-of-range token
access, `TypeError` on `len(None)`) is modelled by `Plan.pyError` resp. by the
`.err` / `Except.error` outcome of the parser.
-/

/-! ## Python-semantics helpers -/

/-- Truthiness of an optional string parameter: Python `if s:` is false for
`None` and for the empty string. -/
def strTruthy : Option String → Bool
  | none => false
  | some s => s ≠ ""

/-- Truthiness of an optional integer parameter: Python `if i:` is false for
`None` and for `0`. -/
def intTruthy : Option Int → Bool
  | none => false
  | some i => i ≠ 0

/-- Python string conversion of an optional value: `"%s" % None` prints
`"None"`. -/
def pyStr : Option String → String
  | none => "None"
  | some s => s

/-- Whitespace splitting over the character list: tokens are maximal runs of
non-whitespace characters, so no empty tokens are ever produced.  `acc` is the
reversed current token. -/
def splitWsAux : List Char → List Char → List String
  | [], acc => if acc = [] then [] else [String.mk acc.reverse]
  | c :: cs, acc =>
    if c = ' ' || c = '\t' then
      (if acc = [] then [] else [String.mk acc.reverse]) ++ splitWsAux cs []
    else splitWsAux cs (c :: acc)

/-- Python `str.split()` (no argument): split on runs of whitespace, never
producing empty tokens.  Within a single line only spaces and tabs matter. -/
def pySplit (s : String) : List String :=
  splitWsAux s.data []

/-- Newline splitting over the character list, keeping empty lines. -/
def splitNlAux : List Char → List Char → List String
  | [], acc => [String.mk acc.reverse]
  | c :: cs, acc =>
    if c = '\n' then String.mk acc.reverse :: splitNlAux cs []
    else splitNlAux cs (c :: acc)

/-- Python `str.splitlines()` restricted to `\n` separators: like splitting on
every newline except that a trailing newline does not produce a final empty
line, and the empty string has no lines at all. -/
def pySplitlines (s : String) : List String :=
  let parts := splitNlAux s.data []
  match parts.getLast? with
  | some "" => parts.dropLast
  | _ => parts

/-- Sequential `%s` substitution over the template characters: each `%s`
consumes the next argument (our templates never exhaust the argument list). -/
def pyFormatAux : List Char → List String → List Char
  | [], _ => []
  | '%' :: 's' :: rest, a :: args => a.data ++ pyFormatAux rest args
  | '%' :: 's' :: rest, [] => '%' :: 's' :: pyFormatAux rest []
  | c :: rest, args => c :: pyFormatAux rest args

/-- Python `template % (a1, ..., an)` for templates whose only directives are
`%s`. -/
def pyFormat (template : String) (args : List String) : String :=
  String.mk (pyFormatAux template.data args)

/-! ## Password strength (`check_password_strength`)

The module classifies a password with the regular expression
`(?=.*[A-Z])(?=.*[a-z])(?=.*[0-9])(?=.*[~\x60!@#$%^&*()_\-+=\x7b\[\x7d\]|\\:;\"\x27<,>\.?/ ])`
via `re.search`: the search succeeds iff at some start position all four
lookaheads hold. -/

/-- The regex class `[A-Z]`. -/
def isUpperC (c : Char) : Bool := 'A' ≤ c && c ≤ 'Z'

/-- The regex class `[a-z]`. -/
def isLowerC (c : Char) : Bool := 'a' ≤ c && c ≤ 'z'

/-- The regex class `[0-9]`. -/
def isDigitC (c : Char) : Bool := '0' ≤ c && c ≤ '9'

/-- The fixed punctuation class of the strength regex, in source order
(`\x7b`/`\x7d` are the literal braces, `\x60` the backtick, `\x27` the
apostrophe). -/
def punctChars : List Char :=
  "~\x60!@#$%^&*()_-+=\x7b[\x7d]|\\:;\"\x27<,>.?/ ".data

/-- Membership in the fixed punctuation class. -/
def isPunctC (c : Char) : Bool := punctChars.contains c

/-- Conjunction of the four class lookaheads over one newline-free segment:
all four classes must occur in it. -/
def allFourClasses (seg : List Char) : Bool :=
  seg.any isUpperC && seg.any isLowerC && seg.any isDigitC && seg.any isPunctC

/-- Model of `re.search` of the four-lookahead pattern over the characters
`s`.  A lookahead `(?=.*[X])` at position `i` matches iff a class-`X`
character occurs at or after `i` BEFORE the next newline: Python's `.` does
not match `\n` (no `re.DOTALL`), so each lookahead only sees the newline-free
run starting at `i` (none of the classes contains `\n` either).  The search
succeeds iff some start position satisfies all four lookaheads. -/
def regexSearchOk (s : List Char) : Bool :=
  (List.range (s.length + 1)).any fun i =>
    allFourClasses ((s.drop i).takeWhile (fun c => c ≠ '\n'))

/-- The newline-delimited lines of a character list (the last line unclosed;
an empty input is one empty line). -/
def linesOf : List Char → List (List Char)
  | [] => [[]]
  | c :: cs =>
    if c = '\n' then [] :: linesOf cs
    else
      match linesOf cs with
      | [] => [[c]]
      | ℓ :: rest => (c :: ℓ) :: rest

/-- Function `check_password_strength`: `weak_pass = (len(password) < 12) or
(re.search(pattern, password) is None)`; the password is strong iff it is not
weak. -/
def check_password_strength (password : String) : Bool :=
  let weak_pass := decide (password.length < 12) || !(regexSearchOk password.data)
  !weak_pass

/-! ## Fact parser (`get_auth_details`)

`get_auth_details` runs `hdcryptmgr showlv <device> -v` and folds over every
stdout line after the first (the header is discarded unconditionally).  The
accumulated per-device dictionary is modelled by `DeviceAuth`: a field is
`none` exactly when the Python dictionary lacks the corresponding key. -/

/-- The per-device dictionary built by `get_auth_details`.  `buckets` holds
the per-`auth_type` name lists (keys are created on first sight of a slot of
that type); `index` and `auth_names` are the flat search lists. -/
structure DeviceAuth where
  initialized : Option String := none
  locked : Option String := none
  buckets : List (String × List String) := []
  index : Option (List String) := none
  auth_names : Option (List String) := none
deriving DecidableEq, Repr

/-- First-match association lookup, the model of Python `d[k]` /
`k in d.keys()` for the per-type buckets. -/
def alookup : List (String × List String) → String → Option (List String)
  | [], _ => none
  | (k, v) :: rest, key => if k = key then some v else alookup rest key

/-- Model of `if auth_type not in curr_auth[device].keys(): curr_auth[device][auth_type] = []`. -/
def ensureKey (l : List (String × List String)) (k : String) : List (String × List String) :=
  if (alookup l k).isSome then l else l ++ [(k, [])]

/-- Model of `curr_auth[device][auth_type].append(auth_name)`: append to the first
entry with the given key. -/
def assocAppend : List (String × List String) → String → String → List (String × List String)
  | [], _, _ => []
  | (k, v) :: rest, key, n =>
    if k = key then (k, v ++ [n]) :: rest else (k, v) :: assocAppend rest key n

/-- Classification of one stdout line, mirroring the branch structure of the
loop body.  `errL` marks a line on which the Python code raises `IndexError`
(token index out of range). -/
inductive LineKind where
  | errL
  | sumUninit
  | sumInit (statusWord : String)
  | slot (idx ty : String) (nm : Option String)
  | skip
deriving DecidableEq, Repr

/-- Classify a raw line: its kind depends only on the line text and the device
name.  A line whose first token is the device is the summary line
(`line[1]` is the status word, raising `IndexError` when missing); a line
whose first token contains `#` is a slot line (`line[1].lower()` is the type,
`line[2]` when present is the name, and the index is `line[0][1:]`); anything
else is skipped by the `else: continue` branch. -/
def classifyLine (device : String) (l : String) : LineKind :=
  match pySplit l with
  | [] => .errL
  | [t0] =>
    if t0 = device then .errL
    else if t0.data.contains '#' then .errL
    else .skip
  | t0 :: t1 :: rest =>
    if t0 = device then
      if t1 = "uninitialized" then .sumUninit else .sumInit t1
    else if t0.data.contains '#' then
      .slot (String.mk (t0.data.drop 1)) (String.mk (t1.data.map Char.toLower)) rest.head?
    else .skip

/-- The state update performed for one slot line: ensure the per-type bucket
exists, append the name to it when present, and extend the flat `index` and
`auth_names` lists (creating them on first use). -/
def applySlot (st : DeviceAuth) (idx ty : String) (nm : Option String) : DeviceAuth :=
  let buckets := ensureKey st.buckets ty
  let buckets := match nm with
    | some n => assocAppend buckets ty n
    | none => buckets
  { st with
    buckets := buckets
    index := some (st.index.getD [] ++ [idx])
    auth_names := some (st.auth_names.getD [] ++ (match nm with | some n => [n] | none => [])) }

/-- Result of processing one line: continue, break out of the loop (the
`uninitialized` branch ends in `break`), or raise. -/
inductive StepRes where
  | err
  | brk (st : DeviceAuth)
  | cont (st : DeviceAuth)
deriving DecidableEq, Repr

/-- One iteration of the parsing loop.  The summary line first sets both flags
to `"no"`; a non-`uninitialized` status flips `initialized` to `"yes"` and a
`locked` status flips `locked` to `"yes"`; the `uninitialized` status keeps
both `"no"` and breaks. -/
def parseLine (device : String) (st : DeviceAuth) (l : String) : StepRes :=
  match classifyLine device l with
  | .errL => .err
  | .sumUninit => .brk { st with initialized := some "no", locked := some "no" }
  | .sumInit t1 =>
    .cont { st with initialized := some "yes",
                    locked := some (if t1 = "locked" then "yes" else "no") }
  | .slot idx ty nm => .cont (applySlot st idx ty nm)
  | .skip => .cont st

/-- Outcome of folding the loop over a list of lines. -/
inductive FoldRes where
  | err
  | broke (st : DeviceAuth)
  | done (st : DeviceAuth)
deriving DecidableEq, Repr

/-- The parsing loop itself. -/
def foldLines (device : String) : DeviceAuth → List String → FoldRes
  | st, [] => .done st
  | st, l :: ls =>
    match parseLine device st l with
    | .err => .err
    | .brk st' => .broke st'
    | .cont st' => foldLines device st' ls

/-- Function `get_auth_details` on the captured stdout of `hdcryptmgr showlv` (the
`rc == 0` path; a failing query is reported before parsing starts).  The first
line is discarded unconditionally; the function has no malformed-output check
and only an `IndexError` (modelled as `Except.error ()`) can abort it. -/
def get_auth_details (device : String) (stdout : String) : Except Unit DeviceAuth :=
  match foldLines device {} ((pySplitlines stdout).drop 1) with
  | .err => .error ()
  | .broke st => .ok st
  | .done st => .ok st

/-! ## Interactive session templates (`expectPrompts`)

The literal `/usr/bin/expect` scripts of the module, with `%s` substitution
holes.  Apostrophes, backticks and braces are written with `\xNN` escapes. -/

/-- Template `expectPrompts["authinit_weak_pwd"]`. -/
def expect_authinit_weak : String :=
  "/usr/bin/expect -c \x27spawn %s; expect \"Enter Passphrase:\"; send \"%s\\r\"; expect \"Please confirm usage of an unsecure passphrase (y|n): \"; send \"y\\r\"; expect \"Confirm Passphrase:\"; send \"%s\\r\"; set timeout -1; expect \"Passphrase authentication method with name \\\"initpwd\\\" added successfully.\"\x27"

/-- Template `expectPrompts["authinit_strong_pwd"]`. -/
def expect_authinit_strong : String :=
  "/usr/bin/expect -c \x27spawn %s; expect \"Enter Passphrase: \"; send \"%s\\r\"; expect \"Confirm Passphrase: \"; send \"%s\\r\"; set timeout -1; expect \"Passphrase authentication method with name \\\"initpwd\\\" added successfully.\"\x27"

/-- Template `expectPrompts["authadd_weak_pwd"]`. -/
def expect_authadd_weak : String :=
  "/usr/bin/expect -c \x27spawn %s; expect \"Enter Passphrase:\"; send \"%s\\r\"; expect \"Please confirm usage of an unsecure passphrase (y|n): \"; send \"y\\r\"; expect \"Confirm Passphrase:\"; send \"%s\\r\"; set timeout -1; expect \"Passphrase authentication method with name \\\"%s\\\" added successfully.\"\x27"

/-- Template `expectPrompts["authadd_strong_pwd"]`. -/
def expect_authadd_strong : String :=
  "/usr/bin/expect -c \x27spawn %s; expect \"Enter Passphrase: \"; send \"%s\\r\"; expect \"Confirm Passphrase: \"; send \"%s\\r\"; set timeout -1; expect \"Passphrase authentication method with name \\\"%s\\\" added successfully.\"\x27"

/-- Template `expectPrompts["unlock"]`. -/
def expect_unlock : String :=
  "/usr/bin/expect -c \x27spawn %s; expect \"Enter Passphrase: \"; send \"%s\\r\"; expect \"Wrong passphrase. Try again (2/3)\"; expect \"Enter Passphrase: \"; send \"wrong\\r\"; expect \"Wrong passphrase. Try again (3/3)\"; expect \"Enter Passphrase: \"; send \"wrong\\r\"; set timeout -1; expect \"hdcryptmgr authunlock failed for device %s.\" \x7b exit 5 \x7d \x27"

/-- Template `expectPrompts["authdelete"]`. -/
def expect_authdelete : String :=
  "/usr/bin/expect -c \x27spawn %s; expect \"Enter Passphrase: \"; send \"%s\\r\"; expect \"Wrong passphrase. Try again (2/3)\"; expect \"Enter Passphrase: \"; send \"wrong\\r\"; expect \"Wrong passphrase. Try again (3/3)\"; expect \"Enter Passphrase: \"; send \"wrong\\r\"; set timeout -1; expect \"3020-0386 Unable to check selected authentication method.\" \x7b exit 5 \x7d \x27"

/-- Template `expectPrompts["authcheck"]`. -/
def expect_authcheck : String :=
  "/usr/bin/expect -c \x27spawn %s; expect \"Enter Passphrase:\"; send \"%s\\r\"; expect \"Enter Passphrase:\"; send \"Wrong\\r\"; expect \"Enter Passphrase:\"; send \"Wrong\\r\"; set timeout -1; expect \"3020-0464 hdcryptmgr authcheck failed for device\" \x7b exit 5 \x7d \x27"

/-! ## Command builder and action orchestrator -/

/-- The module parameters (the `CommandIntent` of the spec).  Optional
parameters default to `None`/`False` as in the argument spec. -/
structure Params where
  action : String := ""
  auth_type : Option String := none
  auth_name : Option String := none
  password : Option String := none
  auth_detail : Option String := none
  auth_index : Option Int := none
  device : String := ""
  auto_key_protection : Bool := false
  force : Bool := false
deriving DecidableEq, Repr

/-- How one action handler run ends, observed up to (and including) the call
of `module.run_command` for the action command:

* `exitOk msg` — `module.exit_json(**results)` short-circuit: no action
  process is spawned and `results["changed"]` is still `False`;
* `fail msg` — `module.fail_json(**results)` before any action process is
  spawned (the spec's `ValidationError`);
* `pyError` — the Python code raises (`KeyError` on a missing state key,
  `TypeError` on `len(None)`);
* `run cmd success_msg fail_msg` — the handler reaches
  `module.run_command(cmd)`, with the success/failure messages it prepared. -/
inductive Plan where
  | exitOk (msg : String)
  | fail (msg : String)
  | pyError
  | run (cmd : String) (success_msg fail_msg : String)
deriving DecidableEq, Repr

/-- The `auth_delete` guard
`"index" not in curr_auth[device].keys() or str(index) not in curr_auth[device]["index"]`. -/
def idxMissing (st : DeviceAuth) (i : Int) : Bool :=
  match st.index with
  | none => true
  | some l => !(l.contains (toString i))

/-- The `auth_delete` guard
`"auth_names" not in curr_auth[device].keys() or name not in curr_auth[device]["auth_names"]`. -/
def nameMissing (st : DeviceAuth) (n : String) : Bool :=
  match st.auth_names with
  | none => true
  | some l => !(l.contains n)

/-- The `auth_add` duplicate guard
`"auth_names" in curr_auth[device].keys() and name in curr_auth[device]["auth_names"]`. -/
def nameDup (st : DeviceAuth) (n : String) : Bool :=
  match st.auth_names with
  | none => false
  | some l => l.contains n

/-- Handler `auth_init`: short-circuits when the volume is already initialized,
otherwise builds `hdcryptmgr authinit` and wraps it in the weak- or
strong-password expect script.  `check_password_strength(None)` raises
`TypeError`, hence `pyError` for an absent password. -/
def auth_init (p : Params) (st : DeviceAuth) : Plan :=
  match st.initialized with
  | none => .pyError
  | some ini =>
    if ini = "yes" then .exitOk "No need to initialize, the LV is already initialized."
    else
      let cmd := ["/usr/sbin/hdcryptmgr authinit"]
      let cmd := if strTruthy p.auth_detail then cmd ++ ["-e " ++ p.auth_detail.getD ""] else cmd
      let cmd := if strTruthy p.auth_name then cmd ++ ["-n " ++ p.auth_name.getD ""] else cmd
      let cmd := cmd ++ [p.device]
      let joined_cmd := String.intercalate " " cmd
      let success_msg := "Successfully initialized authentication method, command: " ++ joined_cmd
      let fail_msg := "The following command failed: " ++ joined_cmd ++ ". Check stderr for more information."
      match p.password with
      | none => .pyError
      | some pw =>
        if !(check_password_strength pw) then
          .run (pyFormat expect_authinit_weak [joined_cmd, pw, pw]) success_msg fail_msg
        else
          .run (pyFormat expect_authinit_strong [joined_cmd, pw, pw]) success_msg fail_msg

/-- Handler `auth_add`: rejects an uninitialized volume with the distinct message,
requires `auth_type`, requires `auth_detail` for key files, rejects duplicate
names and a second PKS method, and wraps passphrase adds in an expect
script. -/
def auth_add (p : Params) (st : DeviceAuth) : Plan :=
  match st.initialized with
  | none => .pyError
  | some ini =>
    if ini = "no" then
      .fail "The provided LV is uninitialized, you can not add authentication methods."
    else if !(strTruthy p.auth_type) then
      .fail "You need to specify the type of authentication method to use."
    else if !(strTruthy p.auth_detail) && p.auth_type.getD "" = "keyfile" then
      .fail "You need to provide the key file's location in auth_detail, when auth_type is set to keyfile."
    else if strTruthy p.auth_name && nameDup st (p.auth_name.getD "") then
      .fail "The provided authentication method's name is already present, kindly use a different one."
    else
      let ty := p.auth_type.getD ""
      let cmd := "/usr/sbin/hdcryptmgr authadd" ++ " -t " ++ ty
        ++ (if strTruthy p.auth_detail then " -m " ++ p.auth_detail.getD "" else "")
        ++ (if strTruthy p.auth_name then " -n " ++ p.auth_name.getD "" else "")
        ++ " " ++ p.device
      let success_msg := "Successfully added authentication method, command: " ++ cmd
      let fail_msg := "The following command failed: " ++ cmd ++ ". Check stderr for more information."
      if ty = "pwd" then
        match p.password with
        | none => .fail "In case of pwd auth type, you need to provide password."
        | some pw =>
          if !(check_password_strength pw) then
            .run (pyFormat expect_authadd_weak [cmd, pw, pw, pyStr p.auth_name]) success_msg fail_msg
          else
            .run (pyFormat expect_authadd_strong [cmd, pw, pw, pyStr p.auth_name]) success_msg fail_msg
      else if ty = "pks" && (alookup st.buckets "pks").isSome then
        .fail "PKS authentication method already exists, can not add a new one."
      else
        .run cmd success_msg fail_msg

/-- Handler `auth_delete`: requires `auth_type`, checks a provided index/name against
the parsed state (`idxMissing`/`nameMissing`), requires at least one of them,
and wraps passphrase deletes in the retry-exhausting expect script. -/
def auth_delete (p : Params) (st : DeviceAuth) : Plan :=
  if !(strTruthy p.auth_type) then
    .fail "Please provide the authentication type of the method that you want to delete."
  else if intTruthy p.auth_index && idxMissing st (p.auth_index.getD 0) then
    .fail "The provided auth_index does not exist for this device's methods."
  else if strTruthy p.auth_name && nameMissing st (p.auth_name.getD "") then
    .fail "The provided auth_name does not exist for this device's methods."
  else if !(strTruthy p.auth_name) && !(intTruthy p.auth_index) then
    .fail "You need to either provide the name or index of the method that you want to delete."
  else
    let cmd := "/usr/sbin/hdcryptmgr authdelete" ++ " -t " ++ p.auth_type.getD ""
      ++ (if strTruthy p.auth_detail then " -m " ++ p.auth_detail.getD "" else "")
      ++ (if intTruthy p.auth_index then " -i " ++ toString (p.auth_index.getD 0) else "")
      ++ (if strTruthy p.auth_name then " -n " ++ p.auth_name.getD "" else "")
      ++ (if p.force then " -f" else "")
      ++ " " ++ p.device
    let success_msg := "Successfully deleted the authentication method, command: " ++ cmd
    let fail_msg := "The following command failed: " ++ cmd ++ ". Check stderr for more information."
    if p.auth_type.getD "" = "pwd" then
      match p.password with
      | none => .fail "In case of pwd auth type, you need to provide password."
      | some pw => .run (pyFormat expect_authdelete [cmd, pw]) success_msg fail_msg
    else if p.auth_type.getD "" = "keyfile" && !(strTruthy p.auth_detail) then
      .fail "You need to provide the location of key file with type=keyfile."
    else
      .run cmd success_msg fail_msg

/-- Handler `auth_unlock`: short-circuits to a no-op success when the parsed state is
not locked; requires `auth_type`; with `auto_key_protection` set it then
rejects the (always present) `auth_type`, making the `-A` branch dead code;
passphrase unlocks are wrapped in the retry-exhausting expect script. -/
def auth_unlock (p : Params) (st : DeviceAuth) : Plan :=
  match st.locked with
  | none => .pyError
  | some lk =>
    if lk = "no" then .exitOk "The provided device is already unlocked."
    else if !(strTruthy p.auth_type) then
      .fail "You need to provide the auth_type that you want to use."
    else if p.auto_key_protection && (strTruthy p.auth_type || strTruthy p.auth_detail) then
      .fail "Can not use auth_detail or auth_type when auth_key_protection is set."
    else
      let cmd := String.intercalate " "
        (["/usr/sbin/hdcryptmgr authunlock", "-t " ++ p.auth_type.getD ""]
          ++ (if strTruthy p.auth_detail then ["-m " ++ p.auth_detail.getD ""] else [])
          ++ (if p.auto_key_protection then ["-A"] else [])
          ++ [p.device])
      let success_msg := "Successfully unlocked the authentication method, command: " ++ cmd
      let fail_msg := "The following command failed: " ++ cmd ++ ". Check stderr for more information."
      if p.auth_type.getD "" = "pwd" then
        match p.password with
        | none => .fail "You need to provide password in case of pwd auth_type"
        | some pw => .run (pyFormat expect_unlock [cmd, pw, p.device]) success_msg fail_msg
      else if p.auth_type.getD "" = "keyfile" && !(strTruthy p.auth_detail) then
        .fail "You need to provide the location in auth_detail, when type = keyfile."
      else
        .run cmd success_msg fail_msg

/-- Handler `auth_check`: never reads the parsed state; requires `auth_type`, passes
any provided index/name straight through to the command line, and only for
`keyfile` demands a name-or-index and a key-file path. -/
def auth_check (p : Params) : Plan :=
  if !(strTruthy p.auth_type) then
    .fail "You need to provide the authentication type for action=check."
  else
    let cmd := String.intercalate " "
      (["/usr/sbin/hdcryptmgr authcheck", "-t " ++ p.auth_type.getD ""]
        ++ (if strTruthy p.auth_detail then ["-m " ++ p.auth_detail.getD ""] else [])
        ++ (if intTruthy p.auth_index then ["-i " ++ toString (p.auth_index.getD 0)] else [])
        ++ (if strTruthy p.auth_name then ["-n " ++ p.auth_name.getD ""] else [])
        ++ [p.device])
    let success_msg := "Successfully checked the authentication method, command: " ++ cmd
    let fail_msg := "The following command failed: " ++ cmd ++ ". Check stderr for more information."
    if p.auth_type.getD "" = "pwd" then
      match p.password with
      | none => .fail "You need to provide password in case of pwd auth_type"
      | some pw => .run (pyFormat expect_authcheck [cmd, pw]) success_msg fail_msg
    else if p.auth_type.getD "" = "keyfile" then
      if !(intTruthy p.auth_index) && !(strTruthy p.auth_name) then
        .fail "You need to provide either index or name in case of keyfile auth_type."
      else if !(strTruthy p.auth_detail) then
        .fail "You need to provide keyfile path in auth_detail in case of keyfile auth_type."
      else
        .run cmd success_msg fail_msg
    else
      .run cmd success_msg fail_msg

/-- The `main()` dispatch on `action` (the argument spec restricts `action` to
the five listed values; the final `else` branch is `auth_check`). -/
def mainDispatch (p : Params) (st : DeviceAuth) : Plan :=
  if p.action = "initialize" then auth_init p st
  else if p.action = "add" then auth_add p st
  else if p.action = "unlock" then auth_unlock p st
  else if p.action = "delete" then auth_delete p st
  else auth_check p

/-! ## Exit-code interpretation after `module.run_command` -/

/-- The `(rc, stdout, stderr)` triple returned by `module.run_command`. -/
structure ExecResult where
  rc : Int
  stdout : String
  stderr : String
deriving DecidableEq, Repr

/-- How a completed action run is reported: `failJson` carries the message,
return code and captured stderr passed to `module.fail_json`; `ok` is the
returned success message. -/
inductive RunReport where
  | failJson (msg : String) (rc : Int) (stderr : String)
  | ok (msg : String)
deriving DecidableEq, Repr

/-- The shared `if rc:` tail of `auth_delete` / `auth_unlock` / `auth_check`:
a zero return code yields the success message, exit code 5 the action's
wrong-password message, and any other non-zero code the generic failure
message, always attaching `rc` and `stderr`. -/
def report_rc (wrong_pw_msg fail_msg success_msg : String) (r : ExecResult) : RunReport :=
  if r.rc ≠ 0 then
    .failJson (if r.rc = 5 then wrong_pw_msg else fail_msg) r.rc r.stderr
  else
    .ok success_msg

/-- The exit-code interpretation of `auth_delete`. -/
def auth_delete_report (fail_msg success_msg : String) (r : ExecResult) : RunReport :=
  report_rc "Could not delete the auth method, incorrect password provided." fail_msg success_msg r

/-- The exit-code interpretation of `auth_unlock`. -/
def auth_unlock_report (fail_msg success_msg : String) (r : ExecResult) : RunReport :=
  report_rc "Could not unlock the device using the provided auth method, incorrect password provided." fail_msg success_msg r

/-- The exit-code interpretation of `auth_check`. -/
def auth_check_report (fail_msg success_msg : String) (r : ExecResult) : RunReport :=
  report_rc "Could not check the auth method, incorrect password provided." fail_msg success_msg r

/-! ## The uninitialized-state invariant

When `hdcryptmgr showlv` reports the device `uninitialized`, the parsing loop
breaks immediately after setting both status fields to `"no"`, so the flat
`index`/`auth_names` keys reported before any slot line are absent. -/

/-- A parsed state of an uninitialized device: both status words are `"no"`
and the slot-derived keys are absent. -/
def Uninitialized (st : DeviceAuth) : Prop :=
  st.initialized = some "no" ∧ st.locked = some "no" ∧ st.index = none ∧ st.auth_names = none

/-- Claim C2: for unlock, delete and check, a non-zero exit code of the
underlying tool is always reported as a failure — exit code 5 with the
action's distinct wrong-secret message and any other non-zero code with the
generic failure message carrying the captured stderr — and never as
success. -/
theorem rc_nonzero_reports_failure (fail_msg success_msg : String) (r : ExecResult)
    (h : r.rc ≠ 0) :
    auth_unlock_report fail_msg success_msg r =
      .failJson (if r.rc = 5 then "Could not unlock the device using the provided auth method, incorrect password provided." else fail_msg) r.rc r.stderr
    ∧ auth_delete_report fail_msg success_msg r =
      .failJson (if r.rc = 5 then "Could not delete the auth method, incorrect password provided." else fail_msg) r.rc r.stderr
    ∧ auth_check_report fail_msg success_msg r =
      .failJson (if r.rc = 5 then "Could not check the auth method, incorrect password provided." else fail_msg) r.rc r.stderr
    ∧ (∀ m, auth_unlock_report fail_msg success_msg r ≠ .ok m)
    ∧ (∀ m, auth_delete_report fail_msg success_msg r ≠ .ok m)
    ∧ (∀ m, auth_check_report fail_msg success_msg r ≠ .ok m) := by
  unfold auth_unlock_report auth_delete_report auth_check_report report_rc
  simp [h]

/-- Witness for C2 at the concrete wrong-secret exit code 5. -/
theorem rc_nonzero_reports_failure_witness :
    ((5 : Int) ≠ 0)
    ∧ auth_unlock_report "f" "s" ⟨5, "", "boom"⟩ =
      .failJson "Could not unlock the device using the provided auth method, incorrect password provided." 5 "boom" :=
  ⟨by decide,
    by simpa using (rc_nonzero_reports_failure "f" "s" ⟨5, "", "boom"⟩ (by decide)).1⟩

/-- Claim C9: `initialize` on an already-initialized state and `unlock` on an
unlocked state short-circuit to `module.exit_json` (`Plan.exitOk`): no action
process is spawned and `results["changed"]` is still `False` (the
`results["changed"] = True` line in `main()` is only reached after the handler
returns, which `exit_json` prevents). -/
theorem noop_shortcircuits (p p' : Params) (st st' : DeviceAuth)
    (h : st.initialized = some "yes") (h' : st'.locked = some "no") :
    auth_init p st = .exitOk "No need to initialize, the LV is already initialized."
    ∧ auth_unlock p' st' = .exitOk "The provided device is already unlocked." := by
  constructor
  · simp [auth_init, h]
  · simp [auth_unlock, h']

/-- Witness for C9 at concrete states. -/
theorem noop_shortcircuits_witness :
    ({ initialized := some "yes" } : DeviceAuth).initialized = some "yes"
    ∧ ({ locked := some "no" } : DeviceAuth).locked = some "no"
    ∧ auth_init {} { initialized := some "yes" } =
        .exitOk "No need to initialize, the LV is already initialized."
    ∧ auth_unlock {} { locked := some "no" } =
        .exitOk "The provided device is already unlocked." :=
  ⟨rfl, rfl,
    (noop_shortcircuits {} {} { initialized := some "yes" } { locked := some "no" } rfl rfl).1,
    (noop_shortcircuits {} {} { initialized := some "yes" } { locked := some "no" } rfl rfl).2⟩

/-- The uninitialized state used in the C1 counterexample. -/
def c1_state : DeviceAuth := { initialized := some "no", locked := some "no" }

/-- The `check` intent used in the C1 counterexample. -/
def c1_params : Params :=
  { action := "check", auth_type := some "pks", auth_name := some "x", device := "testlv" }

/-- Counterexample to claim C1 as stated: a `check` intent evaluated against
an uninitialized state does not fail — `auth_check` never consults the parsed
state and reaches `module.run_command`. -/
theorem check_spawns_on_uninitialized :
    Uninitialized c1_state ∧
    mainDispatch c1_params c1_state =
      .run "/usr/sbin/hdcryptmgr authcheck -t pks -n x testlv"
        "Successfully checked the authentication method, command: /usr/sbin/hdcryptmgr authcheck -t pks -n x testlv"
        "The following command failed: /usr/sbin/hdcryptmgr authcheck -t pks -n x testlv. Check stderr for more information." :=
  ⟨⟨rfl, rfl, rfl, rfl⟩, rfl⟩

/-- Claim C1 as amended: on an uninitialized state, `add` fails with the
distinct cannot-add message and `delete` fails with some validation message
before any spawn, but `unlock` short-circuits to a no-op success (it is not a
failure) and `check` (see the counterexample) performs no initialization check
at all. -/
theorem uninitialized_validation (p : Params) (st : DeviceAuth) (h : Uninitialized st) :
    auth_add p st = .fail "The provided LV is uninitialized, you can not add authentication methods."
    ∧ (∃ m, auth_delete p st = .fail m)
    ∧ auth_unlock p st = .exitOk "The provided device is already unlocked." := by
  obtain ⟨h1, h2, h3, h4⟩ := h
  refine ⟨by simp [auth_add, h1], ?_, by simp [auth_unlock, h2]⟩
  have hidx : ∀ i, idxMissing st i = true := by intro i; simp [idxMissing, h3]
  have hnm : ∀ n, nameMissing st n = true := by intro n; simp [nameMissing, h4]
  cases ht : strTruthy p.auth_type with
  | false =>
    exact ⟨"Please provide the authentication type of the method that you want to delete.",
      by simp [auth_delete, ht]⟩
  | true =>
    cases hi : intTruthy p.auth_index with
    | true =>
      exact ⟨"The provided auth_index does not exist for this device's methods.",
        by simp [auth_delete, ht, hi, hidx]⟩
    | false =>
      cases hn : strTruthy p.auth_name with
      | true =>
        exact ⟨"The provided auth_name does not exist for this device's methods.",
          by simp [auth_delete, ht, hi, hn, hnm]⟩
      | false =>
        exact ⟨"You need to either provide the name or index of the method that you want to delete.",
          by simp [auth_delete, ht, hi, hn]⟩

/-- Witness for the amended C1 at a concrete uninitialized state. -/
theorem uninitialized_validation_witness :
    Uninitialized c1_state
    ∧ auth_add { action := "add" } c1_state =
        .fail "The provided LV is uninitialized, you can not add authentication methods." :=
  ⟨⟨rfl, rfl, rfl, rfl⟩,
    (uninitialized_validation { action := "add" } c1_state ⟨rfl, rfl, rfl, rfl⟩).1⟩

/-- The initialized one-slot state used in the C3 counterexample. -/
def c3_state : DeviceAuth :=
  { initialized := some "yes", locked := some "no", buckets := [("pwd", ["initpwd"])],
    index := some ["1"], auth_names := some ["initpwd"] }

/-- The `check` intent with a non-existent index used in the C3
counterexample. -/
def c3_params : Params :=
  { action := "check", auth_type := some "pks", auth_index := some 99, device := "testlv" }

/-- Counterexample to claim C3 as stated: a `check` intent whose
`auth_index` is not among the parsed indices is not rejected — `auth_check`
does no existence validation and reaches `module.run_command` with `-i 99`. -/
theorem check_ignores_unknown_index :
    idxMissing c3_state 99 = true ∧
    mainDispatch c3_params c3_state =
      .run "/usr/sbin/hdcryptmgr authcheck -t pks -i 99 testlv"
        "Successfully checked the authentication method, command: /usr/sbin/hdcryptmgr authcheck -t pks -i 99 testlv"
        "The following command failed: /usr/sbin/hdcryptmgr authcheck -t pks -i 99 testlv. Check stderr for more information." :=
  ⟨rfl, rfl⟩

/-- Claim C3 as amended: only `delete` validates existence.  With the
authentication type provided, a truthy `auth_index` absent from the parsed
index list fails with the does-not-exist index message, and (when no index is
given) a truthy `auth_name` absent from the parsed name list fails with the
does-not-exist name message, in both cases before any spawn.  `check` performs
no such validation (see the counterexample). -/
theorem delete_rejects_unknown (p : Params) (st : DeviceAuth)
    (ht : strTruthy p.auth_type = true) :
    (intTruthy p.auth_index = true → idxMissing st (p.auth_index.getD 0) = true →
      auth_delete p st = .fail "The provided auth_index does not exist for this device's methods.")
    ∧ (intTruthy p.auth_index = false → strTruthy p.auth_name = true →
        nameMissing st (p.auth_name.getD "") = true →
      auth_delete p st = .fail "The provided auth_name does not exist for this device's methods.") := by
  constructor
  · intro hi hm
    simp [auth_delete, ht, hi, hm]
  · intro hi hn hm
    simp [auth_delete, ht, hi, hn, hm]

/-- Witness for the amended C3: deleting by a non-existent index fails with
the does-not-exist message. -/
theorem delete_rejects_unknown_witness :
    strTruthy (Params.auth_type { action := "delete", auth_type := some "pwd", auth_index := some 7 }) = true
    ∧ intTruthy (Params.auth_index { action := "delete", auth_type := some "pwd", auth_index := some 7 }) = true
    ∧ idxMissing c3_state 7 = true
    ∧ auth_delete { action := "delete", auth_type := some "pwd", auth_index := some 7 } c3_state =
        .fail "The provided auth_index does not exist for this device's methods." :=
  ⟨rfl, by decide, rfl,
    (delete_rejects_unknown { action := "delete", auth_type := some "pwd", auth_index := some 7 }
      c3_state rfl).1 (by decide) rfl⟩

/-- The `check` intent with neither name nor index used in the C4
counterexample. -/
def c4_params : Params := { action := "check", auth_type := some "pks", device := "testlv" }

/-- Counterexample to claim C4 as stated: a `check` intent with both
`auth_name` and `auth_index` absent is not rejected for the `pks` type —
`auth_check` reaches `module.run_command`. -/
theorem check_allows_absent_name_and_index :
    c4_params.auth_name = none ∧ c4_params.auth_index = none ∧
    mainDispatch c4_params {} =
      .run "/usr/sbin/hdcryptmgr authcheck -t pks testlv"
        "Successfully checked the authentication method, command: /usr/sbin/hdcryptmgr authcheck -t pks testlv"
        "The following command failed: /usr/sbin/hdcryptmgr authcheck -t pks testlv. Check stderr for more information." :=
  ⟨rfl, rfl, rfl⟩

/-- Claim C4 as amended: `delete` with both `auth_name` and `auth_index`
absent always fails before any spawn (with the either-name-or-index message
once the required `auth_type` is given); `check` demands a name or index only
for the `keyfile` type. -/
theorem absent_name_and_index_validation (p : Params) (st : DeviceAuth)
    (hn : strTruthy p.auth_name = false) (hi : intTruthy p.auth_index = false) :
    (strTruthy p.auth_type = true →
      auth_delete p st = .fail "You need to either provide the name or index of the method that you want to delete.")
    ∧ (p.auth_type = some "keyfile" →
      auth_check p = .fail "You need to provide either index or name in case of keyfile auth_type.") := by
  constructor
  · intro ht
    simp [auth_delete, ht, hn, hi]
  · intro ht
    simp [auth_check, ht, hn, hi, show strTruthy (some "keyfile") = true from rfl]

/-- Witness for the amended C4 at a concrete delete intent. -/
theorem absent_name_and_index_validation_witness :
    strTruthy (Params.auth_name { action := "delete", auth_type := some "pks" }) = false
    ∧ intTruthy (Params.auth_index { action := "delete", auth_type := some "pks" }) = false
    ∧ strTruthy (Params.auth_type { action := "delete", auth_type := some "pks" }) = true
    ∧ auth_delete { action := "delete", auth_type := some "pks" } {} =
        .fail "You need to either provide the name or index of the method that you want to delete." :=
  ⟨rfl, rfl, rfl,
    ((absent_name_and_index_validation { action := "delete", auth_type := some "pks" } {} rfl rfl).1 rfl)⟩

/-- Counterexample to claim C5 as stated: on raw status text with no header
and no summary line at all (the empty string), `get_auth_details` does not
fail — it returns the empty fact record, with the `initialized` key simply
absent. -/
theorem parse_returns_state_without_header :
    get_auth_details "testlv" "" = .ok ({} : DeviceAuth)
    ∧ ({} : DeviceAuth).initialized = none :=
  ⟨rfl, rfl⟩

/-- Claim C5 as amended: the parser has no malformed-output check.  The first
line is discarded unconditionally; when the status text has at most one line
the parser returns the empty record, and the absent `initialized` key only
surfaces later as a `KeyError` (`Plan.pyError`) at the consuming handler. -/
theorem parse_never_fails_on_missing_header (device s : String) (p : Params) (st : DeviceAuth)
    (hs : (pySplitlines s).length ≤ 1) (hst : st.initialized = none) :
    get_auth_details device s = .ok ({} : DeviceAuth)
    ∧ auth_init p st = .pyError := by
  constructor
  · unfold get_auth_details
    rw [List.drop_eq_nil_of_le hs]
    rfl
  · simp [auth_init, hst]

/-- Witness for the amended C5 on the empty status text. -/
theorem parse_never_fails_on_missing_header_witness :
    (pySplitlines "").length ≤ 1
    ∧ ({} : DeviceAuth).initialized = none
    ∧ get_auth_details "testlv" "" = .ok ({} : DeviceAuth)
    ∧ auth_init {} {} = .pyError :=
  ⟨by decide, rfl,
    (parse_never_fails_on_missing_header "testlv" "" {} {} (by decide) rfl).1,
    (parse_never_fails_on_missing_header "testlv" "" {} {} (by decide) rfl).2⟩

/-- Counterexample to claim C6 as stated: an empty line is neither the summary
line nor a slot line, yet it is not skipped — `line.split()` is `[]` and
`line[0]` raises `IndexError`, aborting the parse. -/
theorem empty_line_aborts_parse :
    pySplit "" = []
    ∧ get_auth_details "testlv" "HDR\ntestlv initialized\n\n#1 pwd initpwd\n" = .error () :=
  ⟨rfl, rfl⟩

/-- Claim C6 as amended: every line with at least one token whose first token
is neither the device name nor contains `#` is skipped without error and
without touching the accumulated state; a blank (token-less) line, however,
raises `IndexError` (see the counterexample). -/
theorem unknown_nonblank_line_skipped (device l : String) (st : DeviceAuth)
    (t0 : String) (rest : List String)
    (h : pySplit l = t0 :: rest) (h1 : t0 ≠ device) (h2 : t0.data.contains '#' = false) :
    parseLine device st l = .cont st := by
  have h2' : '#' ∉ t0.data := by simpa using h2
  have hc : classifyLine device l = .skip := by
    unfold classifyLine
    rw [h]
    cases rest with
    | nil => simp [h1, h2']
    | cons a as => simp [h1, h2']
  unfold parseLine
  rw [hc]

/-- Witness for the amended C6: a header-like line is skipped. -/
theorem unknown_nonblank_line_skipped_witness :
    pySplit "PV STATE" = ["PV", "STATE"]
    ∧ ("PV" ≠ "testlv")
    ∧ "PV".data.contains '#' = false
    ∧ parseLine "testlv" {} "PV STATE" = .cont {} :=
  ⟨rfl, by decide, rfl,
    unknown_nonblank_line_skipped "testlv" "PV STATE" {} "PV" ["STATE"] rfl (by decide) rfl⟩

/-- The unlocked state used in the C10 counterexample. -/
def c10_state : DeviceAuth := { initialized := some "yes", locked := some "no" }

/-- The auto-key-protection unlock intent used in the C10 counterexample. -/
def c10_params : Params :=
  { action := "unlock", auth_type := some "pwd", password := some "p",
    auto_key_protection := true, device := "testlv" }

/-- Counterexample to claim C10 as stated: with the auto-protection flag set
but the device already unlocked, `auth_unlock` short-circuits to a no-op
success — it does not fail with a validation error. -/
theorem auto_protection_noop_when_unlocked :
    c10_params.auto_key_protection = true
    ∧ auth_unlock c10_params c10_state = .exitOk "The provided device is already unlocked."
    ∧ ∀ m, auth_unlock c10_params c10_state ≠ .fail m := by
  refine ⟨rfl, rfl, ?_⟩
  intro m h
  rw [show auth_unlock c10_params c10_state =
    .exitOk "The provided device is already unlocked." from rfl] at h
  exact Plan.noConfusion h

/-- Claim C10 as amended: with the auto-protection flag set, `auth_unlock`
never reaches `module.run_command` for any input and any state — the handler
first demands a truthy `auth_type` and then rejects the combination of the
flag with that very `auth_type`, so the `-A` branch is unreachable; whenever
the state is reported locked the outcome is a validation failure. -/
theorem auto_protection_unreachable (p : Params) (st : DeviceAuth)
    (h : p.auto_key_protection = true) :
    (∀ c s f, auth_unlock p st ≠ .run c s f)
    ∧ (st.locked = some "yes" → ∃ m, auth_unlock p st = .fail m) := by
  constructor
  · intro c s f
    unfold auth_unlock
    match hlk : st.locked with
    | none => simp
    | some lk =>
      by_cases h0 : lk = "no"
      · simp [h0]
      · cases ht : strTruthy p.auth_type with
        | false => simp [h0, ht]
        | true => simp [h0, ht, h]
  · intro hlk
    cases ht : strTruthy p.auth_type with
    | false =>
      exact ⟨"You need to provide the auth_type that you want to use.",
        by simp [auth_unlock, hlk, ht]⟩
    | true =>
      exact ⟨"Can not use auth_detail or auth_type when auth_key_protection is set.",
        by simp [auth_unlock, hlk, ht, h]⟩

/-- Witness for the amended C10 on a locked state. -/
theorem auto_protection_unreachable_witness :
    c10_params.auto_key_protection = true
    ∧ ({ initialized := some "yes", locked := some "yes" } : DeviceAuth).locked = some "yes"
    ∧ ∃ m, auth_unlock c10_params { initialized := some "yes", locked := some "yes" } = .fail m :=
  ⟨rfl, rfl,
    (auto_protection_unreachable c10_params { initialized := some "yes", locked := some "yes" } rfl).2 rfl⟩

/-! ## Password-strength characterization (claim C8)

Python's `.` does not match a newline, so each lookahead `(?=.*[X])` is
confined to the newline-free run starting at the search position.  The search
therefore succeeds iff some newline-delimited LINE of the password contains
all four character classes. -/

/-- An empty segment satisfies no class lookahead. -/
theorem regexSearchOk_nil : regexSearchOk [] = false := by decide

/-- One-step recursion for the search: try position 0 (whose segment is the
first newline-free run of the whole list), then every later position (which
is a position of the tail). -/
theorem regexSearchOk_cons (c : Char) (cs : List Char) :
    regexSearchOk (c :: cs) =
      (allFourClasses ((c :: cs).takeWhile (fun x => x ≠ '\n')) || regexSearchOk cs) := by
  unfold regexSearchOk
  rw [show (c :: cs).length + 1 = (cs.length + 1) + 1 from by simp]
  rw [List.range_succ_eq_map]
  simp only [List.any_cons, List.any_map, List.drop_zero]
  rfl

/-- Adding a character to a segment preserves having all four classes. -/
theorem allFourClasses_cons (c : Char) (l : List Char) (h : allFourClasses l = true) :
    allFourClasses (c :: l) = true := by
  simp only [allFourClasses, Bool.and_eq_true, List.any_cons, Bool.or_eq_true] at h ⊢
  tauto

/-- The first line of a character list is its first newline-free run. -/
theorem linesOf_head (cs : List Char) :
    ∃ rest, linesOf cs = cs.takeWhile (fun c => c ≠ '\n') :: rest := by
  induction cs with
  | nil => exact ⟨[], rfl⟩
  | cons c cs ih =>
    by_cases hc : c = '\n'
    · subst hc
      exact ⟨linesOf cs, by simp [linesOf]⟩
    · obtain ⟨rest, hrest⟩ := ih
      exact ⟨rest, by simp [linesOf, hc, hrest]⟩

/-- The search succeeds iff some newline-delimited line contains all four
classes: a successful position's segment is a suffix of its line (so the line
has all four classes as well), and conversely the start of a full line is a
position whose segment is that line. -/
theorem regexSearchOk_iff_lines (s : List Char) :
    regexSearchOk s = true ↔ ∃ ℓ ∈ linesOf s, allFourClasses ℓ = true := by
  induction s with
  | nil =>
    constructor
    · intro h
      exact absurd h (by decide)
    · rintro ⟨ℓ, hm, hα⟩
      simp [linesOf] at hm
      subst hm
      exact absurd hα (by decide)
  | cons c cs ih =>
    rw [regexSearchOk_cons]
    by_cases hc : c = '\n'
    · subst hc
      have ht : (('\n' : Char) :: cs).takeWhile (fun x => x ≠ '\n') = [] := by
        simp
      have hl : linesOf ('\n' :: cs) = [] :: linesOf cs := by
        simp [linesOf]
      rw [ht, hl]
      simp only [Bool.or_eq_true, List.mem_cons]
      constructor
      · rintro (h | h)
        · exact absurd h (by decide)
        · obtain ⟨ℓ, hm, hα⟩ := ih.mp h
          exact ⟨ℓ, Or.inr hm, hα⟩
      · rintro ⟨ℓ, (rfl | hm), hα⟩
        · exact absurd hα (by decide)
        · exact Or.inr (ih.mpr ⟨ℓ, hm, hα⟩)
    · obtain ⟨rest, hrest⟩ := linesOf_head cs
      have hl : linesOf (c :: cs) = (c :: cs.takeWhile (fun x => x ≠ '\n')) :: rest := by
        simp [linesOf, hc, hrest]
      have ht : (c :: cs).takeWhile (fun x => x ≠ '\n') = c :: cs.takeWhile (fun x => x ≠ '\n') := by
        simp [hc]
      rw [ht, hl]
      simp only [Bool.or_eq_true, List.mem_cons]
      constructor
      · rintro (h | h)
        · exact ⟨_, Or.inl rfl, h⟩
        · obtain ⟨ℓ, hm, hα⟩ := ih.mp h
          rw [hrest] at hm
          rcases List.mem_cons.mp hm with h2 | h2
          · subst h2
            exact ⟨_, Or.inl rfl, allFourClasses_cons c _ hα⟩
          · exact ⟨ℓ, Or.inr h2, hα⟩
      · rintro ⟨ℓ, (rfl | hm), hα⟩
        · exact Or.inl hα
        · refine Or.inr (ih.mpr ⟨ℓ, ?_, hα⟩)
          rw [hrest]
          exact List.mem_cons_of_mem _ hm

/-- The multiline password of the C8 counterexample: all four classes occur in
it, but split across the newline (uppercase and digits on the first line,
lowercase and punctuation on the second). -/
def c8_password : String := "ABCDEF123456\nabcdef~"

/-- Counterexample to claim C8 as stated: this password has length at least 12
and contains at least one character of each of the four classes, yet
`check_password_strength` classifies it weak — the regex lookaheads cannot
cross the newline, and no single line contains all four classes. -/
theorem multiline_password_weak :
    12 ≤ c8_password.length
    ∧ c8_password.data.any isUpperC = true
    ∧ c8_password.data.any isLowerC = true
    ∧ c8_password.data.any isDigitC = true
    ∧ c8_password.data.any isPunctC = true
    ∧ check_password_strength c8_password = false := by
  decide

/-- Claim C8 as amended: a password is classified strong iff its length is at
least 12 and SOME newline-delimited line of it contains at least one character
of each of the four classes (uppercase, lowercase, digit, fixed punctuation
set).  Python's `.` does not match `\n`, so the four lookaheads are confined
to a single line; a password whose classes are spread over different lines is
weak (see the counterexample). -/
theorem check_password_strength_iff (s : String) :
    check_password_strength s = true ↔
      (12 ≤ s.length ∧ ∃ ℓ ∈ linesOf s.data,
        ((∃ c ∈ ℓ, isUpperC c = true) ∧ (∃ c ∈ ℓ, isLowerC c = true)
          ∧ (∃ c ∈ ℓ, isDigitC c = true) ∧ (∃ c ∈ ℓ, isPunctC c = true))) := by
  unfold check_password_strength
  simp only [Bool.not_eq_true', Bool.or_eq_false_iff, decide_eq_false_iff_not, not_lt,
    Bool.not_eq_false']
  rw [regexSearchOk_iff_lines]
  simp only [allFourClasses, Bool.and_eq_true, List.any_eq_true, and_assoc]

/-! ## Fact-set equivalence for the parser (claim C7) -/

/-- Two lists with the same members (set-level equality of the fact lists). -/
def listSetEq (a b : List String) : Prop := a ⊆ b ∧ b ⊆ a

/-- The keys of the per-type buckets. -/
def bucketKeys (l : List (String × List String)) : List String := l.map Prod.fst

/-- Equality of two parsed fact records up to set-level membership: the status
fields agree exactly, key presence agrees, and the index list, name list and
every per-type bucket have the same members (duplicities may differ). -/
def sameFacts (a b : DeviceAuth) : Prop :=
  a.initialized = b.initialized ∧ a.locked = b.locked
  ∧ a.index.isSome = b.index.isSome ∧ listSetEq (a.index.getD []) (b.index.getD [])
  ∧ a.auth_names.isSome = b.auth_names.isSome
  ∧ listSetEq (a.auth_names.getD []) (b.auth_names.getD [])
  ∧ listSetEq (bucketKeys a.buckets) (bucketKeys b.buckets)
  ∧ ∀ k, listSetEq ((alookup a.buckets k).getD []) ((alookup b.buckets k).getD [])

theorem listSetEq_refl (a : List String) : listSetEq a a := ⟨fun _ h => h, fun _ h => h⟩

theorem listSetEq_of_mem_iff {a b : List String} (h : ∀ x, x ∈ a ↔ x ∈ b) : listSetEq a b :=
  ⟨fun x hx => (h x).mp hx, fun x hx => (h x).mpr hx⟩

theorem sameFacts_refl (a : DeviceAuth) : sameFacts a a :=
  ⟨rfl, rfl, rfl, listSetEq_refl _, rfl, listSetEq_refl _, listSetEq_refl _,
    fun _ => listSetEq_refl _⟩

/-- The slot indices contributed by a list of lines. -/
def slotIdxs (device : String) (ls : List String) : List String :=
  ls.filterMap fun l =>
    match classifyLine device l with
    | .slot i _ _ => some i
    | _ => none

/-- The slot names contributed by a list of lines. -/
def slotNames (device : String) (ls : List String) : List String :=
  ls.filterMap fun l =>
    match classifyLine device l with
    | .slot _ _ (some n) => some n
    | _ => none

/-- The slot types contributed by a list of lines. -/
def slotTys (device : String) (ls : List String) : List String :=
  ls.filterMap fun l =>
    match classifyLine device l with
    | .slot _ ty _ => some ty
    | _ => none

/-- The (type, name) pairs contributed by a list of lines. -/
def slotTyNames (device : String) (ls : List String) : List (String × String) :=
  ls.filterMap fun l =>
    match classifyLine device l with
    | .slot _ ty (some n) => some (ty, n)
    | _ => none

/-- The status words of the non-`uninitialized` summary lines. -/
def sumToks (device : String) (ls : List String) : List String :=
  ls.filterMap fun l =>
    match classifyLine device l with
    | .sumInit w => some w
    | _ => none

/-- Folding over a concatenation runs the first part and, unless it broke or
raised, continues with the second. -/
theorem foldLines_append (device : String) (xs ys : List String) :
    ∀ s : DeviceAuth,
      foldLines device s (xs ++ ys) =
        match foldLines device s xs with
        | .err => .err
        | .broke t => .broke t
        | .done t => foldLines device t ys := by
  induction xs with
  | nil => intro s; rfl
  | cons x xs ih =>
    intro s
    cases hp : parseLine device s x with
    | err => simp [foldLines, hp]
    | brk st' => simp [foldLines, hp]
    | cont st' => simp [foldLines, hp, ih st']

/-- Whether a fold ends in `done` depends only on the lines, not on the start
state: the step kind of every line is state-independent. -/
theorem foldLines_done_ex (device : String) :
    ∀ (ls : List String) (s t : DeviceAuth), foldLines device s ls = .done t →
      ∀ s', ∃ t', foldLines device s' ls = .done t' := by
  intro ls
  induction ls with
  | nil => intro s t _ s'; exact ⟨s', rfl⟩
  | cons l ls ih =>
    intro s t h s'
    cases hc : classifyLine device l with
    | errL => simp [foldLines, parseLine, hc] at h
    | sumUninit => simp [foldLines, parseLine, hc] at h
    | sumInit w =>
      simp only [foldLines, parseLine, hc] at h ⊢
      exact ih _ t h _
    | slot i ty nm =>
      simp only [foldLines, parseLine, hc] at h ⊢
      exact ih _ t h _
    | skip =>
      simp only [foldLines, parseLine, hc] at h ⊢
      exact ih _ t h _

/-- Lookup over a concatenation: the first hit wins. -/
theorem alookup_append (b c : List (String × List String)) (k : String) :
    alookup (b ++ c) k =
      match alookup b k with
      | some v => some v
      | none => alookup c k := by
  induction b with
  | nil => rfl
  | cons p rest ih =>
    obtain ⟨k', v⟩ := p
    by_cases h : k' = k <;> simp [alookup, h, ih]

/-- Lookup after ensuring a key: the key now maps to its old value (empty when
absent); other keys are untouched. -/
theorem alookup_ensureKey (b : List (String × List String)) (ty k : String) :
    alookup (ensureKey b ty) k =
      if k = ty then some ((alookup b ty).getD []) else alookup b k := by
  unfold ensureKey
  by_cases h : (alookup b ty).isSome
  · simp only [h, if_true]
    by_cases hk : k = ty
    · subst hk
      obtain ⟨v, hv⟩ := Option.isSome_iff_exists.mp h
      simp [hv]
    · simp [hk]
  · simp only [h, if_false, Bool.false_eq_true]
    rw [alookup_append]
    have hb : alookup b ty = none := Option.not_isSome_iff_eq_none.mp h
    by_cases hk : k = ty
    · subst hk
      simp [hb, alookup]
    · have hk' : ty ≠ k := Ne.symm hk
      cases hbk : alookup b k <;> simp [alookup, hk, hk', hbk]

/-- Lookup after appending to a key's bucket: that key's value grows by the
appended name; other keys are untouched. -/
theorem alookup_assocAppend (b : List (String × List String)) (ty n k : String) :
    alookup (assocAppend b ty n) k =
      if k = ty then (alookup b ty).map (fun v => v ++ [n]) else alookup b k := by
  induction b with
  | nil =>
    by_cases hk : k = ty <;> simp [assocAppend, alookup, hk]
  | cons p rest ih =>
    obtain ⟨k', v⟩ := p
    by_cases h1 : k' = ty
    · subst h1
      by_cases hk : k = k'
      · subst hk
        simp [assocAppend, alookup]
      · have hk' : k' ≠ k := Ne.symm hk
        simp [assocAppend, alookup, hk, hk']
    · by_cases hk2 : k' = k
      · have hkty : ¬(k = ty) := fun h => h1 (hk2.trans h)
        simp [assocAppend, alookup, h1, hk2, hkty]
      · simp [assocAppend, alookup, h1, hk2, ih]

/-- Lookup after one slot update: the slot's type bucket grows by the slot's
name (if any), created empty first when absent; other buckets untouched. -/
theorem alookup_applySlot (st : DeviceAuth) (i ty : String) (nm : Option String) (k : String) :
    alookup (applySlot st i ty nm).buckets k =
      if k = ty then
        some ((alookup st.buckets ty).getD []
          ++ (match nm with | some n => [n] | none => []))
      else alookup st.buckets k := by
  cases nm with
  | none =>
    simp [applySlot, alookup_ensureKey]
  | some n =>
    simp only [applySlot]
    rw [alookup_assocAppend, alookup_ensureKey]
    by_cases hk : k = ty <;> simp [hk, alookup_ensureKey]

/-- A key occurs among the bucket keys iff its lookup succeeds. -/
theorem mem_bucketKeys_iff (b : List (String × List String)) (k : String) :
    k ∈ bucketKeys b ↔ (alookup b k).isSome = true := by
  induction b with
  | nil => simp [bucketKeys, alookup]
  | cons p rest ih =>
    obtain ⟨k', v⟩ := p
    show k ∈ k' :: bucketKeys rest ↔ _
    by_cases h : k' = k
    · subst h
      simp [alookup]
    · have h2 : ¬(k = k') := fun hh => h hh.symm
      simp [List.mem_cons, alookup, h, h2, ih]

/-- The last element of a list (structural). -/
def lastElem : List String → Option String
  | [] => none
  | [a] => some a
  | _ :: rest => lastElem rest

theorem lastElem_cons_some (a : String) (as : List String) :
    ∃ z, lastElem (a :: as) = some z := by
  induction as generalizing a with
  | nil => exact ⟨a, rfl⟩
  | cons b bs ih => simpa [lastElem] using ih b

/-! ### Characterization of a completed parse fold -/

/-- After a fold that runs to completion, the `index` list is the starting one
extended by the slot indices of the processed lines, and the key exists iff it
existed before or some slot line occurred. -/
theorem foldLines_done_index (device : String) :
    ∀ (ls : List String) (s t : DeviceAuth), foldLines device s ls = .done t →
      t.index.getD [] = s.index.getD [] ++ slotIdxs device ls
      ∧ t.index.isSome = (s.index.isSome || !(slotIdxs device ls).isEmpty) := by
  intro ls
  induction ls with
  | nil =>
    intro s t h
    cases h
    simp [slotIdxs]
  | cons l ls ih =>
    intro s t h
    cases hc : classifyLine device l with
    | errL => simp [foldLines, parseLine, hc] at h
    | sumUninit => simp [foldLines, parseLine, hc] at h
    | sumInit w =>
      simp only [foldLines, parseLine, hc] at h
      obtain ⟨h1, h2⟩ := ih _ t h
      constructor
      · simpa [slotIdxs, List.filterMap_cons, hc] using h1
      · simpa [slotIdxs, List.filterMap_cons, hc] using h2
    | slot i ty nm =>
      simp only [foldLines, parseLine, hc] at h
      obtain ⟨h1, h2⟩ := ih _ t h
      constructor
      · simp only [applySlot, Option.getD_some] at h1
        simp [slotIdxs, List.filterMap_cons, hc, h1]
      · simp only [applySlot, Option.isSome_some, Bool.true_or] at h2
        simp [slotIdxs, List.filterMap_cons, hc, h2]
    | skip =>
      simp only [foldLines, parseLine, hc] at h
      obtain ⟨h1, h2⟩ := ih _ t h
      constructor
      · simpa [slotIdxs, List.filterMap_cons, hc] using h1
      · simpa [slotIdxs, List.filterMap_cons, hc] using h2

/-- After a fold that runs to completion, the `auth_names` list is the
starting one extended by the named-slot names, and the key exists iff it
existed before or some slot line occurred. -/
theorem foldLines_done_names (device : String) :
    ∀ (ls : List String) (s t : DeviceAuth), foldLines device s ls = .done t →
      t.auth_names.getD [] = s.auth_names.getD [] ++ slotNames device ls
      ∧ t.auth_names.isSome = (s.auth_names.isSome || !(slotIdxs device ls).isEmpty) := by
  intro ls
  induction ls with
  | nil =>
    intro s t h
    cases h
    simp [slotNames, slotIdxs]
  | cons l ls ih =>
    intro s t h
    cases hc : classifyLine device l with
    | errL => simp [foldLines, parseLine, hc] at h
    | sumUninit => simp [foldLines, parseLine, hc] at h
    | sumInit w =>
      simp only [foldLines, parseLine, hc] at h
      obtain ⟨h1, h2⟩ := ih _ t h
      constructor
      · simpa [slotNames, List.filterMap_cons, hc] using h1
      · simpa [slotIdxs, List.filterMap_cons, hc] using h2
    | slot i ty nm =>
      simp only [foldLines, parseLine, hc] at h
      obtain ⟨h1, h2⟩ := ih _ t h
      constructor
      · simp only [applySlot, Option.getD_some] at h1
        cases nm with
        | none => simpa [slotNames, List.filterMap_cons, hc] using h1
        | some n => simp [slotNames, List.filterMap_cons, hc, h1]
      · simp only [applySlot, Option.isSome_some, Bool.true_or] at h2
        simp [slotIdxs, List.filterMap_cons, hc, h2]
    | skip =>
      simp only [foldLines, parseLine, hc] at h
      obtain ⟨h1, h2⟩ := ih _ t h
      constructor
      · simpa [slotNames, List.filterMap_cons, hc] using h1
      · simpa [slotIdxs, List.filterMap_cons, hc] using h2

/-- After a fold that runs to completion, the status fields are determined by
the last processed summary line (all of which are non-`uninitialized`, since
an `uninitialized` one would have broken the loop). -/
theorem foldLines_done_status (device : String) :
    ∀ (ls : List String) (s t : DeviceAuth), foldLines device s ls = .done t →
      t.initialized = (match sumToks device ls with
        | [] => s.initialized
        | _ :: _ => some "yes")
      ∧ t.locked = (match lastElem (sumToks device ls) with
        | none => s.locked
        | some w => some (if w = "locked" then "yes" else "no")) := by
  intro ls
  induction ls with
  | nil =>
    intro s t h
    cases h
    simp [sumToks, lastElem]
  | cons l ls ih =>
    intro s t h
    cases hc : classifyLine device l with
    | errL => simp [foldLines, parseLine, hc] at h
    | sumUninit => simp [foldLines, parseLine, hc] at h
    | sumInit w =>
      simp only [foldLines, parseLine, hc] at h
      obtain ⟨h1, h2⟩ := ih _ t h
      have hcons : sumToks device (l :: ls) = w :: sumToks device ls := by
        simp [sumToks, List.filterMap_cons, hc]
      rw [hcons]
      constructor
      · cases hr : sumToks device ls <;> simp [hr] at h1 <;> simp [h1]
      · cases hr : sumToks device ls with
        | nil =>
          simp [hr, lastElem] at h2 ⊢
          exact h2
        | cons a as =>
          obtain ⟨z, hz⟩ := lastElem_cons_some a as
          rw [hr] at h2
          rw [hz] at h2
          have : lastElem (w :: a :: as) = lastElem (a :: as) := rfl
          rw [this, hz]
          exact h2
    | slot i ty nm =>
      simp only [foldLines, parseLine, hc] at h
      obtain ⟨h1, h2⟩ := ih _ t h
      constructor
      · simpa [sumToks, List.filterMap_cons, hc] using h1
      · simpa [sumToks, List.filterMap_cons, hc] using h2
    | skip =>
      simp only [foldLines, parseLine, hc] at h
      obtain ⟨h1, h2⟩ := ih _ t h
      constructor
      · simpa [sumToks, List.filterMap_cons, hc] using h1
      · simpa [sumToks, List.filterMap_cons, hc] using h2

/-- After a fold that runs to completion, each per-type bucket exists iff it
existed before or a slot of that type occurred, and its members are the old
ones plus the names of that type's named slots. -/
theorem foldLines_done_buckets (device : String) :
    ∀ (ls : List String) (s t : DeviceAuth), foldLines device s ls = .done t →
      (∀ k, (alookup t.buckets k).isSome
          = ((alookup s.buckets k).isSome || (slotTys device ls).contains k))
      ∧ (∀ k x, x ∈ (alookup t.buckets k).getD []
          ↔ x ∈ (alookup s.buckets k).getD [] ∨ (k, x) ∈ slotTyNames device ls) := by
  intro ls
  induction ls with
  | nil =>
    intro s t h
    cases h
    simp [slotTys, slotTyNames]
  | cons l ls ih =>
    intro s t h
    cases hc : classifyLine device l with
    | errL => simp [foldLines, parseLine, hc] at h
    | sumUninit => simp [foldLines, parseLine, hc] at h
    | sumInit w =>
      simp only [foldLines, parseLine, hc] at h
      obtain ⟨h1, h2⟩ := ih _ t h
      constructor
      · intro k
        simpa [slotTys, List.filterMap_cons, hc] using h1 k
      · intro k x
        simpa [slotTyNames, List.filterMap_cons, hc] using h2 k x
    | slot i ty nm =>
      simp only [foldLines, parseLine, hc] at h
      obtain ⟨h1, h2⟩ := ih _ t h
      have htys : slotTys device (l :: ls) = ty :: slotTys device ls := by
        simp [slotTys, List.filterMap_cons, hc]
      constructor
      · intro k
        rw [h1 k, alookup_applySlot, htys]
        by_cases hk : k = ty
        · subst hk
          simp
        · have hk' : ¬(ty = k) := fun hh => hk hh.symm
          simp [hk, hk']
      · intro k x
        rw [h2 k x, alookup_applySlot]
        cases nm with
        | none =>
          have hnm : slotTyNames device (l :: ls) = slotTyNames device ls := by
            simp [slotTyNames, List.filterMap_cons, hc]
          rw [hnm]
          by_cases hk : k = ty
          · subst hk
            simp
          · simp [hk]
        | some n =>
          have hnm : slotTyNames device (l :: ls) = (ty, n) :: slotTyNames device ls := by
            simp [slotTyNames, List.filterMap_cons, hc]
          rw [hnm]
          by_cases hk : k = ty
          · subst hk
            simp [List.mem_append]
            tauto
          · have hk' : ¬(k = ty ∧ x = n) := fun hh => hk hh.1
            simp [hk, Prod.ext_iff, hk']
    | skip =>
      simp only [foldLines, parseLine, hc] at h
      obtain ⟨h1, h2⟩ := ih _ t h
      constructor
      · intro k
        simpa [slotTys, List.filterMap_cons, hc] using h1 k
      · intro k x
        simpa [slotTyNames, List.filterMap_cons, hc] using h2 k x

/-- Claim C7 as amended: re-parsing the concatenation of the same
header+content twice yields the same fact SET — identical status fields, key
presence, and members of the index list, name list and every per-type bucket —
but not the same lists: the sequences accumulate duplicates (see the
counterexample).  The header is any line the parser skips. -/
theorem parse_doubled_same_facts (device s1 s2 hdr : String) (content : List String)
    (hsplit1 : pySplitlines s1 = hdr :: content)
    (hsplit2 : pySplitlines s2 = hdr :: (content ++ hdr :: content))
    (hskip : classifyLine device hdr = .skip)
    (st1 : DeviceAuth) (h1 : get_auth_details device s1 = .ok st1) :
    ∃ st2, get_auth_details device s2 = .ok st2 ∧ sameFacts st1 st2 := by
  unfold get_auth_details at h1 ⊢
  rw [hsplit1] at h1
  rw [hsplit2]
  rw [show (hdr :: content).drop 1 = content from rfl] at h1
  rw [show (hdr :: (content ++ hdr :: content)).drop 1 = content ++ hdr :: content from rfl]
  cases hf : foldLines device {} content with
  | err =>
    rw [hf] at h1
    simp at h1
  | broke st =>
    rw [hf] at h1
    simp at h1
    subst h1
    have hfull : foldLines device {} (content ++ hdr :: content) = .broke st := by
      rw [foldLines_append, hf]
    rw [hfull]
    exact ⟨st, rfl, sameFacts_refl st⟩
  | done st =>
    rw [hf] at h1
    simp at h1
    subst h1
    have hstep : foldLines device st (hdr :: content) = foldLines device st content := by
      simp [foldLines, parseLine, hskip]
    obtain ⟨t', ht'⟩ := foldLines_done_ex device content {} st hf st
    have hfull : foldLines device {} (content ++ hdr :: content) = .done t' := by
      rw [foldLines_append, hf]
      show foldLines device st (hdr :: content) = .done t'
      rw [hstep, ht']
    rw [hfull]
    refine ⟨t', rfl, ?_⟩
    obtain ⟨i1, i2⟩ := foldLines_done_index device content {} st hf
    obtain ⟨n1, n2⟩ := foldLines_done_names device content {} st hf
    obtain ⟨sa, sb⟩ := foldLines_done_status device content {} st hf
    obtain ⟨b1, b2⟩ := foldLines_done_buckets device content {} st hf
    obtain ⟨j1, j2⟩ := foldLines_done_index device content st t' ht'
    obtain ⟨m1, m2⟩ := foldLines_done_names device content st t' ht'
    obtain ⟨ta, tb⟩ := foldLines_done_status device content st t' ht'
    obtain ⟨c1, c2⟩ := foldLines_done_buckets device content st t' ht'
    refine ⟨?_, ?_, ?_, ?_, ?_, ?_, ?_, ?_⟩
    · cases hr : sumToks device content with
      | nil => simp [ta, sa, hr]
      | cons a as => simp [ta, sa, hr]
    · cases hr : lastElem (sumToks device content) with
      | none => simp [tb, sb, hr]
      | some w => simp [tb, sb, hr]
    · simp only [j2, i2]
      simp
    · apply listSetEq_of_mem_iff
      intro x
      simp only [j1, i1]
      simp [List.mem_append]
    · simp only [m2, n2]
      simp
    · apply listSetEq_of_mem_iff
      intro x
      simp only [m1, n1]
      simp [List.mem_append]
    · apply listSetEq_of_mem_iff
      intro x
      rw [mem_bucketKeys_iff, mem_bucketKeys_iff, c1 x, b1 x]
      simp [alookup]
    · intro k
      apply listSetEq_of_mem_iff
      intro x
      rw [c2 k x, b2 k x]
      simp [alookup]

/-- The content lines of the C7 example status text. -/
def c7_content : List String := ["testlv initialized", "#1 pwd initpwd"]

/-- One header+content status text. -/
def c7_once : String := "HDR\ntestlv initialized\n#1 pwd initpwd\n"

/-- The fact record parsed from one copy. -/
def c7_state_once : DeviceAuth :=
  { initialized := some "yes", locked := some "no", buckets := [("pwd", ["initpwd"])],
    index := some ["1"], auth_names := some ["initpwd"] }

/-- The fact record parsed from the doubled text: same membership, duplicated
lists. -/
def c7_state_twice : DeviceAuth :=
  { initialized := some "yes", locked := some "no",
    buckets := [("pwd", ["initpwd", "initpwd"])],
    index := some ["1", "1"], auth_names := some ["initpwd", "initpwd"] }

/-- Counterexample to claim C7 as stated: parsing the doubled header+content
does NOT reproduce the same fact record — the index list, name list and the
`pwd` bucket accumulate duplicates. -/
theorem parse_doubled_duplicates :
    get_auth_details "testlv" c7_once = .ok c7_state_once
    ∧ get_auth_details "testlv" (c7_once ++ c7_once) = .ok c7_state_twice
    ∧ c7_state_once ≠ c7_state_twice :=
  ⟨rfl, rfl, by decide⟩

/-- Witness for the amended C7 at the concrete doubled status text. -/
theorem parse_doubled_same_facts_witness :
    pySplitlines c7_once = "HDR" :: c7_content
    ∧ pySplitlines (c7_once ++ c7_once) = "HDR" :: (c7_content ++ "HDR" :: c7_content)
    ∧ classifyLine "testlv" "HDR" = LineKind.skip
    ∧ get_auth_details "testlv" c7_once = .ok c7_state_once
    ∧ ∃ st2, get_auth_details "testlv" (c7_once ++ c7_once) = .ok st2
        ∧ sameFacts c7_state_once st2 :=
  ⟨rfl, rfl, rfl, rfl,
    parse_doubled_same_facts "testlv" c7_once (c7_once ++ c7_once) "HDR" c7_content
      rfl rfl rfl c7_state_once rfl⟩
